import Mathlib

/-!
Shallow embedding of the offline-first synchronization engine of the
OptusControl frontend (src/frontend/src/hooks/useOfflineSync.ts,
src/frontend/src/lib/api.ts offline-db section,
src/frontend/src/components/modals/UploadReceiptModal.tsx, and the
offline branch of the measurements page handleSubmit).

Machine integers are Nat; a byte is a Nat below 256.  A Blob is its byte
list.  Fallible platform operations return Option.  An HTTP exchange is
modelled by its result: `none` for a thrown network error, `some code`
for a response with the given HTTP status code.
-/

namespace OptusSync

/-- Sync lifecycle status of a queued entry, from the string union
'pending_sync' | 'synced' | 'error' in the OfflineMeasurement and
OfflineReceipt interfaces (api.ts). -/
inductive SyncStatus where
  | pending_sync
  | synced
  | error
deriving DecidableEq, Repr

/-- OfflineMeasurement record (api.ts lines 120-129).  `id` is the Dexie
auto-increment primary key; `error_message` is absent (`none`) unless the
drainer wrote one. -/
structure OfflineMeasurement where
  id : Nat
  project_id : String
  description : String
  supplier_name : String
  measurement_date : String
  status : SyncStatus
  error_message : Option String
  created_at : String
deriving DecidableEq, Repr

/-- OfflineReceipt record (api.ts lines 131-140).  The captured photo is
stored as `image_blob` (raw bytes) or `image_base64` (a data-URL string). -/
structure OfflineReceipt where
  id : Nat
  company_id : String
  project_id : Option String
  image_blob : Option (List Nat)
  image_base64 : Option String
  status : SyncStatus
  error_message : Option String
  created_at : String
deriving DecidableEq, Repr

/-- The two tables of the Dexie database OptusOfflineDb (api.ts lines
142-155): `measurements: '++id, project_id, status'` and
`receipts: '++id, company_id, status'`. -/
structure SyncDb where
  measurements : List OfflineMeasurement
  receipts : List OfflineReceipt
deriving DecidableEq, Repr

/-- Fetch-spec semantics of `response.ok`: true exactly for HTTP status
codes in the range 200..299. -/
def responseOk (code : Nat) : Bool :=
  200 ≤ code && code < 300

/-! ## Base64 and data URLs

`FileReader.readAsDataURL` (used by the receipt Entry Builder) encodes the
file bytes as `data:<mime>;base64,<payload>`; `fetch` on such a URL
followed by `.blob()` (used by the drainer) decodes it back.  These two
platform primitives are embedded as an executable base64 codec. -/

/-- The 64-character base64 alphabet, in index order. -/
def base64Alphabet : List Char :=
  "ABCDEFGHIJKLMNOPQRSTUVWXYZabcdefghijklmnopqrstuvwxyz0123456789+/".data

/-- Character for a sextet value (defined for values below 64). -/
def sextetChar (n : Nat) : Char :=
  base64Alphabet.getD n '?'

/-- Sextet value of an alphabet character; `none` for characters outside
the alphabet (including the padding character). -/
def charSextet (c : Char) : Option Nat :=
  base64Alphabet.findIdx? (fun d => d = c)

/-- Standard base64 encoding of a byte list, with '=' padding. -/
def base64EncodeChars : List Nat → List Char
  | [] => []
  | [a] =>
      [sextetChar (a / 4), sextetChar (a % 4 * 16), '=', '=']
  | [a, b] =>
      [sextetChar (a / 4), sextetChar (a % 4 * 16 + b / 16),
       sextetChar (b % 16 * 4), '=']
  | a :: b :: c :: rest =>
      sextetChar (a / 4) :: sextetChar (a % 4 * 16 + b / 16) ::
      sextetChar (b % 16 * 4 + c / 64) :: sextetChar (c % 64) ::
      base64EncodeChars rest

/-- Standard base64 decoding; `none` on malformed input. -/
def base64DecodeChars : List Char → Option (List Nat)
  | [] => some []
  | c0 :: c1 :: c2 :: c3 :: rest =>
      match charSextet c0, charSextet c1 with
      | some s0, some s1 =>
          if c2 = '=' then
            if c3 = '=' ∧ rest = [] then some [s0 * 4 + s1 / 16] else none
          else
            match charSextet c2 with
            | some s2 =>
                if c3 = '=' then
                  if rest = [] then
                    some [s0 * 4 + s1 / 16, s1 % 16 * 16 + s2 / 4]
                  else none
                else
                  match charSextet c3, base64DecodeChars rest with
                  | some s3, some bs =>
                      some ((s0 * 4 + s1 / 16) :: (s1 % 16 * 16 + s2 / 4) ::
                            (s2 % 4 * 64 + s3) :: bs)
                  | _, _ => none
            | none => none
      | _, _ => none
  | _ => none

/-- FileReader.readAsDataURL on a file with the given MIME type and byte
content: the data-URL string `data:<mime>;base64,<payload>`
(UploadReceiptModal.tsx lines 44-49). -/
def readAsDataURL (mime : String) (bytes : List Nat) : String :=
  "data:" ++ mime ++ ";base64," ++ String.mk (base64EncodeChars bytes)

/-- Everything after the first comma of a character list; `none` when no
comma occurs. -/
def afterFirstComma : List Char → Option (List Char)
  | [] => none
  | c :: rest => if c = ',' then some rest else afterFirstComma rest

/-- `await fetch(dataUrl)` followed by `await res.blob()` on a base64
data-URL string (useOfflineSync.ts lines 82-83): the decoded bytes of the
payload after the first comma; `none` models the fetch throwing on a
malformed URL. -/
def fetchDataUrlBlob (s : String) : Option (List Nat) :=
  (afterFirstComma s.data).bind base64DecodeChars

/-! ## Remote requests built by the Sync Drainer -/

/-- JSON body of the measurement submission (useOfflineSync.ts lines
50-57): exactly the six keys passed to JSON.stringify. -/
structure ProvisionBody where
  project_id : String
  description : String
  supplier_name : String
  measurement_date : String
  expected_amount : Nat
  status : String
deriving DecidableEq, Repr

/-- The measurement submission request (useOfflineSync.ts lines 47-58). -/
structure ProvisionRequest where
  url : String
  method : String
  body : ProvisionBody
deriving DecidableEq, Repr

/-- Multipart form of the receipt submission (useOfflineSync.ts lines
76-92): the 'file' part (name and bytes), 'company_id', and 'project_id'
appended only when present. -/
structure MultipartForm where
  fileName : String
  fileBytes : List Nat
  company_id : String
  project_id : Option String
deriving DecidableEq, Repr

/-- The receipt upload request (useOfflineSync.ts lines 94-97). -/
structure UploadRequest where
  url : String
  method : String
  body : MultipartForm
deriving DecidableEq, Repr

/-- Request built for one queued measurement (useOfflineSync.ts lines
47-58): POST to API_URL ++ '/projects/provisions' with the four entry
fields, the constant expected_amount 0 and the constant status 'pending'. -/
def buildProvisionRequest (apiUrl : String) (item : OfflineMeasurement) :
    ProvisionRequest :=
  { url := apiUrl ++ "/projects/provisions"
    method := "POST"
    body :=
      { project_id := item.project_id
        description := item.description
        supplier_name := item.supplier_name
        measurement_date := item.measurement_date
        expected_amount := 0
        status := "pending" } }

/-- The fileBlob computation of syncReceipts (useOfflineSync.ts lines
78-84): the raw blob when present, otherwise the bytes fetched from the
base64 data URL, otherwise none. -/
def buildFileBlob (item : OfflineReceipt) : Option (List Nat) :=
  match item.image_blob with
  | some b => some b
  | none =>
      match item.image_base64 with
      | some s => fetchDataUrlBlob s
      | none => none

/-- Request built for one queued receipt (useOfflineSync.ts lines 76-97),
when a file blob is available: multipart POST to
API_URL ++ '/receipts/upload' with the file named
'receipt_<id>.jpg'. -/
def buildUploadRequest (apiUrl : String) (item : OfflineReceipt) :
    Option UploadRequest :=
  (buildFileBlob item).map fun b =>
    { url := apiUrl ++ "/receipts/upload"
      method := "POST"
      body :=
        { fileName := "receipt_" ++ toString item.id ++ ".jpg"
          fileBytes := b
          company_id := item.company_id
          project_id := item.project_id } }

/-- The content of a multipart body that the spec calls equivalent: the
binary attached as the 'file' field alongside company_id and the optional
project_id. -/
def multipartContent (r : UploadRequest) : List Nat × String × Option String :=
  (r.body.fileBytes, r.body.company_id, r.body.project_id)

/-! ## The drain pass -/

/-- The pending scan of the measurements table
(`db.measurements.where('status').equals('pending_sync').toArray()`,
useOfflineSync.ts line 43). -/
def scanPendingM (dbm : List OfflineMeasurement) : List OfflineMeasurement :=
  dbm.filter fun m => m.status = SyncStatus.pending_sync

/-- The pending scan of the receipts table (useOfflineSync.ts line 72). -/
def scanPendingR (dbr : List OfflineReceipt) : List OfflineReceipt :=
  dbr.filter fun r => r.status = SyncStatus.pending_sync

/-- Effect of one measurement submission outcome on the stored record
(useOfflineSync.ts lines 60-67): 2xx marks synced, a non-2xx response
marks error with message 'Erro no servidor', and a thrown network error
(`none`) reaches only the console.error in the catch block, leaving the
record untouched. -/
def applyOutcomeM (res : Option Nat) (m : OfflineMeasurement) :
    OfflineMeasurement :=
  match res with
  | none => m
  | some code =>
      if responseOk code then { m with status := SyncStatus.synced }
      else { m with status := SyncStatus.error,
                    error_message := some "Erro no servidor" }

/-- Effect of one receipt upload outcome on the stored record
(useOfflineSync.ts lines 99-106): same shape, with message
'Erro no upload'. -/
def applyOutcomeR (res : Option Nat) (r : OfflineReceipt) : OfflineReceipt :=
  match res with
  | none => r
  | some code =>
      if responseOk code then { r with status := SyncStatus.synced }
      else { r with status := SyncStatus.error,
                    error_message := some "Erro no upload" }

/-- Dexie `db.measurements.update(item.id, changes)` followed by the
branch above: every record whose primary key equals the item's id (unique
in Dexie) receives the outcome for that id. -/
def measurementFetchUpdate (out : Nat → Option Nat)
    (dbm : List OfflineMeasurement) (item : OfflineMeasurement) :
    List OfflineMeasurement :=
  dbm.map fun m => if item.id = m.id then applyOutcomeM (out m.id) m else m

/-- Loop body of syncReceipts for one scanned item (useOfflineSync.ts
lines 74-107): when no file blob can be built the item is skipped
(`if (!fileBlob) continue`) with no request and no update; otherwise the
upload request is issued and the outcome applied to the record with the
item's id. -/
def receiptStep (apiUrl : String) (out : Nat → Option Nat)
    (dbr : List OfflineReceipt) (item : OfflineReceipt) :
    List OfflineReceipt × Option UploadRequest :=
  match buildUploadRequest apiUrl item with
  | none => (dbr, none)
  | some req =>
      (dbr.map fun r => if item.id = r.id then applyOutcomeR (out r.id) r else r,
       some req)

/-- The `for (const item of pending)` loop of syncMeasurements
(useOfflineSync.ts lines 45-68), with the list of issued requests. -/
def drainMeasurementsList (apiUrl : String) (out : Nat → Option Nat)
    (dbm : List OfflineMeasurement) :
    List OfflineMeasurement → List OfflineMeasurement × List ProvisionRequest
  | [] => (dbm, [])
  | item :: rest =>
      let dbm1 := measurementFetchUpdate out dbm item
      let res := drainMeasurementsList apiUrl out dbm1 rest
      (res.1, buildProvisionRequest apiUrl item :: res.2)

/-- The `for (const item of pending)` loop of syncReceipts
(useOfflineSync.ts lines 74-107). -/
def drainReceiptsList (apiUrl : String) (out : Nat → Option Nat)
    (dbr : List OfflineReceipt) :
    List OfflineReceipt → List OfflineReceipt × List UploadRequest
  | [] => (dbr, [])
  | item :: rest =>
      let step := receiptStep apiUrl out dbr item
      let res := drainReceiptsList apiUrl out step.1 rest
      (res.1, step.2.toList ++ res.2)

/-- syncMeasurements (useOfflineSync.ts lines 42-69): scan the pending
measurements, then run the loop over the snapshot. -/
def syncMeasurements (apiUrl : String) (out : Nat → Option Nat)
    (dbm : List OfflineMeasurement) :
    List OfflineMeasurement × List ProvisionRequest :=
  drainMeasurementsList apiUrl out dbm (scanPendingM dbm)

/-- syncReceipts (useOfflineSync.ts lines 71-108). -/
def syncReceipts (apiUrl : String) (out : Nat → Option Nat)
    (dbr : List OfflineReceipt) :
    List OfflineReceipt × List UploadRequest :=
  drainReceiptsList apiUrl out dbr (scanPendingR dbr)

/-- One whole drain pass, the try body of syncData (useOfflineSync.ts
lines 32-39): syncMeasurements then syncReceipts.  `outM` and `outR` give
each entry id its HTTP exchange result. -/
def runDrainPass (apiUrl : String) (outM outR : Nat → Option Nat)
    (d : SyncDb) : SyncDb × List ProvisionRequest × List UploadRequest :=
  let rm := syncMeasurements apiUrl outM d.measurements
  let rr := syncReceipts apiUrl outR d.receipts
  ({ measurements := rm.1, receipts := rr.1 }, rm.2, rr.2)

/-- Iterated passes: one drain pass per element of the outcome list. -/
def runMeasurementsPasses (apiUrl : String) :
    List (Nat → Option Nat) → List OfflineMeasurement →
    List OfflineMeasurement
  | [], dbm => dbm
  | out :: rest, dbm =>
      runMeasurementsPasses apiUrl rest (syncMeasurements apiUrl out dbm).1

/-- Iterated receipt passes. -/
def runReceiptsPasses (apiUrl : String) :
    List (Nat → Option Nat) → List OfflineReceipt → List OfflineReceipt
  | [], dbr => dbr
  | out :: rest, dbr =>
      runReceiptsPasses apiUrl rest (syncReceipts apiUrl out dbr).1

/-! ## Entry Builder (offline save paths) -/

/-- Dexie auto-increment key for the next insert: strictly greater than
every key already in the table, hence fresh and never reused. -/
def nextId (ids : List Nat) : Nat :=
  ids.foldr max 0 + 1

/-- The measurement entry built by the offline branch of the measurements
page handleSubmit (db.measurements.add, with supplier_name the constant
'Manual (Offline)', measurement_date the current date string, status
'pending_sync' and created_at the current ISO timestamp). -/
def newMeasurementEntry (dbm : List OfflineMeasurement)
    (pid desc today nowIso : String) : OfflineMeasurement :=
  { id := nextId (dbm.map OfflineMeasurement.id)
    project_id := pid
    description := desc
    supplier_name := "Manual (Offline)"
    measurement_date := today
    status := SyncStatus.pending_sync
    error_message := none
    created_at := nowIso }

/-- Offline branch of the measurements page handleSubmit: append the new
pending entry to the measurements table. -/
def handleSubmitOffline (dbm : List OfflineMeasurement)
    (pid desc today nowIso : String) : List OfflineMeasurement :=
  dbm ++ [newMeasurementEntry dbm pid desc today nowIso]

/-- The receipt entry built by the offline branch of
UploadReceiptModal handleUpload (lines 39-56): company_id from the modal
prop, image_base64 the readAsDataURL encoding of the captured file,
status 'pending_sync'; no project_id and no image_blob are stored. -/
def newReceiptEntry (dbr : List OfflineReceipt)
    (companyId mime : String) (fileBytes : List Nat) (nowIso : String) :
    OfflineReceipt :=
  { id := nextId (dbr.map OfflineReceipt.id)
    company_id := companyId
    project_id := none
    image_blob := none
    image_base64 := some (readAsDataURL mime fileBytes)
    status := SyncStatus.pending_sync
    error_message := none
    created_at := nowIso }

/-- Offline branch of UploadReceiptModal handleUpload: append the new
pending receipt to the receipts table. -/
def handleUploadOffline (dbr : List OfflineReceipt)
    (companyId mime : String) (fileBytes : List Nat) (nowIso : String) :
    List OfflineReceipt :=
  dbr ++ [newReceiptEntry dbr companyId mime fileBytes nowIso]

/-- Reopening the Dexie database after a process restart: the
OptusOfflineDb constructor (api.ts lines 146-152) only re-declares the
same version(1) store schema, and IndexedDB data is durable across
process restarts, so the persisted tables are the ones written before the
restart. -/
def reopenOptusOfflineDb (d : SyncDb) : SyncDb := d

/-! ## Connectivity listener

The networkStatusChange handler (useOfflineSync.ts lines 16-21) runs
`setIsOnline(status.connected); if (status.connected) syncData();` for
each event the Capacitor Network plugin delivers.  The plugin is an
external platform API; its contract is that a networkStatusChange event
is delivered once per genuine change of the connected state. -/

/-- Number of syncData invocations made by the listener over a delivered
event sequence: one per event whose connected field is true
(useOfflineSync.ts lines 16-21). -/
def listenerTriggers (events : List Bool) : Nat :=
  (events.filter fun c => c).length

/-- The platform contract of the networkStatusChange event stream: given
the previous connected state, every delivered event reports a state
different from the one before it. -/
def genuineTransitions : Bool → List Bool → Prop
  | _, [] => True
  | prev, cur :: rest => prev ≠ cur ∧ genuineTransitions cur rest

instance : ∀ prev events, Decidable (genuineTransitions prev events)
  | _, [] => isTrue trivial
  | prev, cur :: rest =>
      match instDecidableNot (p := prev = cur), instDecidableGenuineTransitions cur rest with
      | isTrue h1, isTrue h2 => isTrue ⟨h1, h2⟩
      | isFalse h1, _ => isFalse fun h => h1 h.1
      | _, isFalse h2 => isFalse fun h => h2 h.2

/-- Number of offline-to-online transitions in a reported state sequence,
starting from the given previous state. -/
def offlineToOnlineCount : Bool → List Bool → Nat
  | _, [] => 0
  | prev, cur :: rest =>
      (if !prev && cur then 1 else 0) + offlineToOnlineCount cur rest

/-! ## Event-loop interleaving of two syncData calls

syncData (useOfflineSync.ts lines 28-40) guards with
`if (isSyncing) return`.  `isSyncing` is a React useState value: inside a
given closure it is the constant captured at the render that created the
closure, and `setIsSyncing` only updates the store read by FUTURE
renders.  The networkStatusChange listener is registered once (useEffect
with an empty dependency list), so the syncData closure it holds captured
the initial render's value false, permanently.

A call to this closure is a task on the single JavaScript thread; it runs
synchronously up to each await and other tasks may run between awaits.
The phases below put one task step per suspension region; processing one
scanned item (its fetch await plus its update await) is taken as one
atomic step, which only removes interleavings and so only under-
approximates the behaviours of the source. -/

/-- Progress of one syncData task through its awaits. -/
inductive TaskPhase where
  | idle (captured : Bool)
  | scanM
  | procM (items : List OfflineMeasurement)
  | scanR
  | procR (items : List OfflineReceipt)
  | finished
deriving DecidableEq, Repr

/-- Shared state of the process: the Dexie tables, the React isSyncing
store, and the requests issued so far. -/
structure DrainGlobal where
  db : SyncDb
  isSyncingStore : Bool
  requestsM : List ProvisionRequest
  requestsR : List UploadRequest
deriving DecidableEq, Repr

/-- One step of one syncData task.
idle: the synchronous prefix of syncData — the guard reads the captured
closure value; when it passes, setIsSyncing(true) writes the store and the
measurements scan is issued (line 29-30, 43).
scanM: the scan await resolves against the current table (line 43).
procM: one loop iteration of syncMeasurements (lines 45-68).
scanR: the receipts scan resolves (line 72).
procR: one loop iteration of syncReceipts (lines 74-107); when the loop
ends the finally block sets the store to false (line 38). -/
def stepPhase (apiUrl : String) (outM outR : Nat → Option Nat)
    (g : DrainGlobal) : TaskPhase → DrainGlobal × TaskPhase
  | TaskPhase.idle captured =>
      if captured then (g, TaskPhase.finished)
      else ({ g with isSyncingStore := true }, TaskPhase.scanM)
  | TaskPhase.scanM =>
      (g, TaskPhase.procM (scanPendingM g.db.measurements))
  | TaskPhase.procM [] => (g, TaskPhase.scanR)
  | TaskPhase.procM (item :: rest) =>
      ({ g with
          db := { g.db with
                    measurements :=
                      measurementFetchUpdate outM g.db.measurements item }
          requestsM := g.requestsM ++ [buildProvisionRequest apiUrl item] },
       TaskPhase.procM rest)
  | TaskPhase.scanR =>
      (g, TaskPhase.procR (scanPendingR g.db.receipts))
  | TaskPhase.procR [] =>
      ({ g with isSyncingStore := false }, TaskPhase.finished)
  | TaskPhase.procR (item :: rest) =>
      let step := receiptStep apiUrl outR g.db.receipts item
      ({ g with
          db := { g.db with receipts := step.1 }
          requestsR := g.requestsR ++ step.2.toList },
       TaskPhase.procR rest)
  | TaskPhase.finished => (g, TaskPhase.finished)

/-- Two concurrent syncData calls A and B. -/
structure TwoCallMachine where
  g : DrainGlobal
  taskA : TaskPhase
  taskB : TaskPhase
deriving DecidableEq, Repr

/-- Run the task picked by the scheduler (false = A, true = B) for one
step. -/
def stepTwoCall (apiUrl : String) (outM outR : Nat → Option Nat)
    (m : TwoCallMachine) (pick : Bool) : TwoCallMachine :=
  if pick then
    let r := stepPhase apiUrl outM outR m.g m.taskB
    { m with g := r.1, taskB := r.2 }
  else
    let r := stepPhase apiUrl outM outR m.g m.taskA
    { m with g := r.1, taskA := r.2 }

/-- Run a whole schedule. -/
def runTwoCall (apiUrl : String) (outM outR : Nat → Option Nat)
    (m0 : TwoCallMachine) (sched : List Bool) : TwoCallMachine :=
  sched.foldl (stepTwoCall apiUrl outM outR) m0

/-! ## Concrete inputs used to evaluate the model -/

/-- The default API base (the VITE_API_URL fallback in useOfflineSync.ts
line 5). -/
def defaultApiUrl : String := "http://localhost:8000/api/v1"

/-- A pending queued measurement. -/
def exPendingM : OfflineMeasurement :=
  { id := 1
    project_id := "proj-1"
    description := "medicao da obra"
    supplier_name := "Manual (Offline)"
    measurement_date := "2026-01-10"
    status := SyncStatus.pending_sync
    error_message := none
    created_at := "2026-01-10T08:00:00Z" }

/-- A queued measurement already marked error by an earlier pass. -/
def exErrorM : OfflineMeasurement :=
  { exPendingM with
      id := 7
      status := SyncStatus.error
      error_message := some "Erro no servidor" }

/-- A batch of three pending measurements, ids 1, 2, 3. -/
def exBatch : List OfflineMeasurement :=
  [exPendingM, { exPendingM with id := 2 }, { exPendingM with id := 3 }]

/-- Outcomes where entry 2's request throws (network error) and the
others get 200. -/
def outNetErrOn2 : Nat → Option Nat :=
  fun i => if i = 2 then none else some 200

/-- Outcomes where entry 2 gets a 500 response and the others get 200. -/
def outHttpErrOn2 : Nat → Option Nat :=
  fun i => if i = 2 then some 500 else some 200

/-- Outcomes where every request gets 200. -/
def outAllOk : Nat → Option Nat := fun _ => some 200

/-- A pending queued receipt carrying a raw image blob. -/
def exReceiptBlob : OfflineReceipt :=
  { id := 4
    company_id := "comp-1"
    project_id := some "proj-1"
    image_blob := some [255, 216, 255, 224]
    image_base64 := none
    status := SyncStatus.pending_sync
    error_message := none
    created_at := "2026-01-10T08:05:00Z" }

/-- A pending queued receipt with neither image_blob nor image_base64. -/
def exReceiptEmpty : OfflineReceipt :=
  { exReceiptBlob with id := 5, image_blob := none, image_base64 := none }

/-- A queued receipt already marked error by an earlier pass. -/
def exErrorR : OfflineReceipt :=
  { exReceiptBlob with
      id := 6
      status := SyncStatus.error
      error_message := some "Erro no upload" }

/-- A queued measurement already synced by an earlier pass. -/
def exSyncedM : OfflineMeasurement :=
  { exPendingM with id := 8, status := SyncStatus.synced }

/-- Initial machine for two syncData calls from the network-listener
closure (both captured isSyncing values are the initial render's false),
over a store holding one pending measurement. -/
def demoMachine0 : TwoCallMachine :=
  { g :=
      { db := { measurements := [exPendingM], receipts := [] }
        isSyncingStore := false
        requestsM := []
        requestsR := [] }
    taskA := TaskPhase.idle false
    taskB := TaskPhase.idle false }

/-- An event-loop schedule: A runs its guard and scan, B runs its guard
and scan while A awaits its first fetch, then each processes the entry it
scanned, then A finishes. -/
def demoSchedule : List Bool :=
  [false, false, true, true, false, true, false, false, false]

/-- The machine after the demo schedule. -/
def demoFinal : TwoCallMachine :=
  runTwoCall defaultApiUrl outAllOk outAllOk demoMachine0 demoSchedule

/-- The machine after the first four steps of the demo schedule, when
both calls have passed the guard and hold a scan containing the same
pending entry. -/
def demoMid : TwoCallMachine :=
  runTwoCall defaultApiUrl outAllOk outAllOk demoMachine0
    [false, false, true, true]

/-! ## Codec lemmas -/

/-- Decoding a sextet character recovers the sextet. -/
theorem charSextet_sextetChar : ∀ n < 64, charSextet (sextetChar n) = some n := by
  decide

/-- Sextet characters are never the padding character. -/
theorem sextetChar_ne_pad : ∀ n < 64, sextetChar n ≠ '=' := by
  decide

/-- Base64 decoding inverts base64 encoding on byte lists. -/
theorem base64_roundtrip :
    ∀ bs : List Nat, (∀ b ∈ bs, b < 256) →
      base64DecodeChars (base64EncodeChars bs) = some bs
  | [], _ => rfl
  | [a], h => by
      have ha : a < 256 := h a (by simp)
      have h0 := charSextet_sextetChar (a / 4) (by omega)
      have h1 := charSextet_sextetChar (a % 4 * 16) (by omega)
      simp only [base64EncodeChars, base64DecodeChars, h0, h1]
      simp
      omega
  | [a, b], h => by
      have ha : a < 256 := h a (by simp)
      have hb : b < 256 := h b (by simp)
      have h0 := charSextet_sextetChar (a / 4) (by omega)
      have h1 := charSextet_sextetChar (a % 4 * 16 + b / 16) (by omega)
      have h2 := charSextet_sextetChar (b % 16 * 4) (by omega)
      have hne := sextetChar_ne_pad (b % 16 * 4) (by omega)
      simp only [base64EncodeChars, base64DecodeChars, h0, h1, h2, if_neg hne]
      simp
      omega
  | a :: b :: c :: rest, h => by
      have ha : a < 256 := h a (by simp)
      have hb : b < 256 := h b (by simp)
      have hc : c < 256 := h c (by simp)
      have ih := base64_roundtrip rest (fun x hx => h x (by simp [hx]))
      have h0 := charSextet_sextetChar (a / 4) (by omega)
      have h1 := charSextet_sextetChar (a % 4 * 16 + b / 16) (by omega)
      have h2 := charSextet_sextetChar (b % 16 * 4 + c / 64) (by omega)
      have h3 := charSextet_sextetChar (c % 64) (by omega)
      have hne2 := sextetChar_ne_pad (b % 16 * 4 + c / 64) (by omega)
      have hne3 := sextetChar_ne_pad (c % 64) (by omega)
      simp only [base64EncodeChars, base64DecodeChars, h0, h1, h2, h3, ih,
        if_neg hne2, if_neg hne3]
      simp
      omega

/-- afterFirstComma finds the payload after a comma-free prefix. -/
theorem afterFirstComma_append (l r : List Char) (h : ',' ∉ l) :
    afterFirstComma (l ++ ',' :: r) = some r := by
  induction l with
  | nil => simp [afterFirstComma]
  | cons c cs ih =>
      simp only [List.cons_append, afterFirstComma]
      rw [if_neg (by intro hc; exact h (by simp [hc]))]
      exact ih fun hm => h (List.mem_cons_of_mem _ hm)

/-- Fetching the data URL written by readAsDataURL recovers the original
bytes, for any MIME type without a comma. -/
theorem fetchDataUrlBlob_readAsDataURL (mime : String) (bytes : List Nat)
    (hm : ',' ∉ mime.data) (hb : ∀ b ∈ bytes, b < 256) :
    fetchDataUrlBlob (readAsDataURL mime bytes) = some bytes := by
  have hdata : (readAsDataURL mime bytes).data
      = ("data:".data ++ mime.data ++ ";base64".data) ++
        (',' :: base64EncodeChars bytes) := by
    simp only [readAsDataURL, String.data_append]
    have hsplit : (";base64,").data = ";base64".data ++ [','] := by decide
    simp [hsplit]
  have hnc : ',' ∉ ("data:".data ++ mime.data ++ ";base64".data) := by
    intro hmem
    rcases List.mem_append.mp hmem with hmem1 | hmem2
    · rcases List.mem_append.mp hmem1 with hmem3 | hmem4
      · revert hmem3; decide
      · exact hm hmem4
    · revert hmem2; decide
  unfold fetchDataUrlBlob
  rw [hdata, afterFirstComma_append _ _ hnc]
  exact base64_roundtrip bytes hb

/-! ## Drain lemmas: measurements -/

/-- Applying an outcome never changes a measurement's primary key. -/
theorem applyOutcomeM_id (res : Option Nat) (m : OfflineMeasurement) :
    (applyOutcomeM res m).id = m.id := by
  cases res with
  | none => rfl
  | some code => by_cases hok : responseOk code <;> simp [applyOutcomeM, hok]

/-- Applying the same outcome twice is the same as applying it once. -/
theorem applyOutcomeM_idem (res : Option Nat) (m : OfflineMeasurement) :
    applyOutcomeM res (applyOutcomeM res m) = applyOutcomeM res m := by
  cases res with
  | none => rfl
  | some code => by_cases hok : responseOk code <;> simp [applyOutcomeM, hok]

/-- Final table of the syncMeasurements loop: each record receives the
outcome for its id when some scanned item carries that id, and is
untouched otherwise. -/
theorem drainMeasurementsList_fst (apiUrl : String) (out : Nat → Option Nat) :
    ∀ (items dbm : List OfflineMeasurement),
      (drainMeasurementsList apiUrl out dbm items).1
        = dbm.map fun m =>
            if items.any (fun i => decide (i.id = m.id)) then
              applyOutcomeM (out m.id) m
            else m
  | [], dbm => by simp [drainMeasurementsList]
  | item :: rest, dbm => by
      simp only [drainMeasurementsList]
      rw [drainMeasurementsList_fst apiUrl out rest
            (measurementFetchUpdate out dbm item)]
      unfold measurementFetchUpdate
      rw [List.map_map]
      apply List.map_congr_left
      intro m _
      by_cases hid : item.id = m.id <;>
        by_cases hrest : rest.any (fun i => decide (i.id = m.id)) = true <;>
        simp [hid, hrest, applyOutcomeM_id, applyOutcomeM_idem, Function.comp]

/-- Requests of the syncMeasurements loop: one request per scanned item,
in scan order, independent of any outcome. -/
theorem drainMeasurementsList_snd (apiUrl : String) (out : Nat → Option Nat) :
    ∀ (items dbm : List OfflineMeasurement),
      (drainMeasurementsList apiUrl out dbm items).2
        = items.map (buildProvisionRequest apiUrl)
  | [], _ => rfl
  | item :: rest, dbm => by
      simp only [drainMeasurementsList, List.map_cons]
      rw [drainMeasurementsList_snd apiUrl out rest
            (measurementFetchUpdate out dbm item)]

/-- Membership in the pending measurements scan. -/
theorem mem_scanPendingM (dbm : List OfflineMeasurement)
    (m : OfflineMeasurement) :
    m ∈ scanPendingM dbm ↔ m ∈ dbm ∧ m.status = SyncStatus.pending_sync := by
  simp [scanPendingM, List.mem_filter]

/-- Final table of syncMeasurements, in closed map form. -/
theorem syncMeasurements_fst (apiUrl : String) (out : Nat → Option Nat)
    (dbm : List OfflineMeasurement) :
    (syncMeasurements apiUrl out dbm).1
      = dbm.map fun m =>
          if (scanPendingM dbm).any (fun i => decide (i.id = m.id)) then
            applyOutcomeM (out m.id) m
          else m :=
  drainMeasurementsList_fst apiUrl out (scanPendingM dbm) dbm

/-- Requests of syncMeasurements: exactly one per pending entry. -/
theorem syncMeasurements_snd (apiUrl : String) (out : Nat → Option Nat)
    (dbm : List OfflineMeasurement) :
    (syncMeasurements apiUrl out dbm).2
      = (scanPendingM dbm).map (buildProvisionRequest apiUrl) :=
  drainMeasurementsList_snd apiUrl out (scanPendingM dbm) dbm

/-- A drain pass never changes the set of measurement primary keys. -/
theorem syncMeasurements_ids (apiUrl : String) (out : Nat → Option Nat)
    (dbm : List OfflineMeasurement) :
    (syncMeasurements apiUrl out dbm).1.map OfflineMeasurement.id
      = dbm.map OfflineMeasurement.id := by
  rw [syncMeasurements_fst, List.map_map]
  apply List.map_congr_left
  intro m _
  by_cases hc : (scanPendingM dbm).any (fun i => decide (i.id = m.id)) = true <;>
    simp [hc, applyOutcomeM_id, Function.comp]

/-- With unique primary keys, the record of the final table carrying a
given entry's id is exactly the entry with its outcome applied (when the
entry was scanned) or the entry itself (when it was not). -/
theorem syncMeasurements_at_id (apiUrl : String) (out : Nat → Option Nat)
    (dbm : List OfflineMeasurement) (item : OfflineMeasurement)
    (hnd : (dbm.map OfflineMeasurement.id).Nodup) (hmem : item ∈ dbm) :
    ∀ m ∈ (syncMeasurements apiUrl out dbm).1, m.id = item.id →
      m = if (scanPendingM dbm).any (fun i => decide (i.id = item.id)) then
            applyOutcomeM (out item.id) item
          else item := by
  intro m hm hid
  rw [syncMeasurements_fst] at hm
  rcases List.mem_map.mp hm with ⟨m0, hm0, hfm⟩
  have hid0 : m0.id = item.id := by
    have : m.id = m0.id := by
      rw [← hfm]
      by_cases hc : (scanPendingM dbm).any (fun i => decide (i.id = m0.id)) = true <;>
        simp [hc, applyOutcomeM_id]
    omega
  have hm0item : m0 = item :=
    List.inj_on_of_nodup_map hnd hm0 hmem hid0
  subst hm0item
  rw [← hfm, hid0]

/-- An entry that is not pending is not scanned and survives a drain pass
unchanged (given unique primary keys). -/
theorem syncMeasurements_not_pending_unchanged (apiUrl : String)
    (out : Nat → Option Nat) (dbm : List OfflineMeasurement)
    (item : OfflineMeasurement)
    (hnd : (dbm.map OfflineMeasurement.id).Nodup) (hmem : item ∈ dbm)
    (hnp : item.status ≠ SyncStatus.pending_sync) :
    item ∉ scanPendingM dbm ∧ item ∈ (syncMeasurements apiUrl out dbm).1 := by
  have hscan : item ∉ scanPendingM dbm := by
    intro hin
    exact hnp ((mem_scanPendingM dbm item).mp hin).2
  refine ⟨hscan, ?_⟩
  have hcond : (scanPendingM dbm).any (fun i => decide (i.id = item.id)) = false := by
    rw [List.any_eq_false]
    intro i hi
    simp only [decide_eq_true_eq]
    intro hidi
    have hidbm : i ∈ dbm := ((mem_scanPendingM dbm i).mp hi).1
    have : i = item := List.inj_on_of_nodup_map hnd hidbm hmem hidi
    exact hscan (this ▸ hi)
  rw [syncMeasurements_fst]
  refine List.mem_map.mpr ⟨item, hmem, ?_⟩
  simp [hcond]

/-- A non-pending measurement is never scanned and never changed by any
number of later drain passes. -/
theorem runMeasurementsPasses_not_pending (apiUrl : String) :
    ∀ (outs : List (Nat → Option Nat)) (dbm : List OfflineMeasurement)
      (item : OfflineMeasurement),
      (dbm.map OfflineMeasurement.id).Nodup → item ∈ dbm →
      item.status ≠ SyncStatus.pending_sync →
      item ∈ runMeasurementsPasses apiUrl outs dbm ∧
        item ∉ scanPendingM (runMeasurementsPasses apiUrl outs dbm)
  | [], _, item, _, hmem, hnp =>
      ⟨hmem, fun hin => hnp ((mem_scanPendingM _ _).mp hin).2⟩
  | out :: rest, dbm, item, hnd, hmem, hnp => by
      have h1 := syncMeasurements_not_pending_unchanged apiUrl out dbm item
        hnd hmem hnp
      have hnd1 :
          ((syncMeasurements apiUrl out dbm).1.map OfflineMeasurement.id).Nodup := by
        rw [syncMeasurements_ids]
        exact hnd
      exact runMeasurementsPasses_not_pending apiUrl rest _ item hnd1 h1.2 hnp

/-! ## Drain lemmas: receipts -/

/-- Applying an outcome never changes a receipt's primary key. -/
theorem applyOutcomeR_id (res : Option Nat) (r : OfflineReceipt) :
    (applyOutcomeR res r).id = r.id := by
  cases res with
  | none => rfl
  | some code => by_cases hok : responseOk code <;> simp [applyOutcomeR, hok]

/-- Applying an outcome never changes a receipt's payload fields. -/
theorem applyOutcomeR_payload (res : Option Nat) (r : OfflineReceipt) :
    (applyOutcomeR res r).image_blob = r.image_blob ∧
      (applyOutcomeR res r).image_base64 = r.image_base64 := by
  cases res with
  | none => exact ⟨rfl, rfl⟩
  | some code => by_cases hok : responseOk code <;> simp [applyOutcomeR, hok]

/-- Applying the same outcome twice is the same as applying it once. -/
theorem applyOutcomeR_idem (res : Option Nat) (r : OfflineReceipt) :
    applyOutcomeR res (applyOutcomeR res r) = applyOutcomeR res r := by
  cases res with
  | none => rfl
  | some code => by_cases hok : responseOk code <;> simp [applyOutcomeR, hok]

/-- A receipt upload request exists exactly when a file blob can be
built. -/
theorem buildUploadRequest_eq_none (apiUrl : String) (item : OfflineReceipt) :
    buildUploadRequest apiUrl item = none ↔ buildFileBlob item = none := by
  simp [buildUploadRequest]

/-- Final table of the syncReceipts loop: a record receives the outcome
for its id when some scanned item carries that id and a buildable
payload; otherwise it is untouched. -/
theorem drainReceiptsList_fst (apiUrl : String) (out : Nat → Option Nat) :
    ∀ (items dbr : List OfflineReceipt),
      (drainReceiptsList apiUrl out dbr items).1
        = dbr.map fun r =>
            if items.any
                (fun i => decide (i.id = r.id) && (buildFileBlob i).isSome) then
              applyOutcomeR (out r.id) r
            else r
  | [], dbr => by simp [drainReceiptsList]
  | item :: rest, dbr => by
      simp only [drainReceiptsList]
      rcases hbb : buildFileBlob item with _ | b
      · have hstep : receiptStep apiUrl out dbr item = (dbr, none) := by
          simp [receiptStep, buildUploadRequest, hbb]
        rw [hstep]
        rw [drainReceiptsList_fst apiUrl out rest dbr]
        apply List.map_congr_left
        intro r _
        simp [hbb]
      · have hstep :
            (receiptStep apiUrl out dbr item).1
              = dbr.map fun r =>
                  if item.id = r.id then applyOutcomeR (out r.id) r else r := by
          simp [receiptStep, buildUploadRequest, hbb]
        rw [drainReceiptsList_fst apiUrl out rest
              (receiptStep apiUrl out dbr item).1]
        rw [hstep, List.map_map]
        apply List.map_congr_left
        intro r _
        by_cases hid : item.id = r.id <;>
          by_cases hrest :
            rest.any
              (fun i => decide (i.id = r.id) && (buildFileBlob i).isSome) = true <;>
          simp [hid, hrest, hbb, applyOutcomeR_id, applyOutcomeR_idem,
            Function.comp]

/-- Requests of the syncReceipts loop: exactly one per scanned item with
a buildable payload, in scan order, independent of any outcome. -/
theorem drainReceiptsList_snd (apiUrl : String) (out : Nat → Option Nat) :
    ∀ (items dbr : List OfflineReceipt),
      (drainReceiptsList apiUrl out dbr items).2
        = items.filterMap (buildUploadRequest apiUrl)
  | [], _ => rfl
  | item :: rest, dbr => by
      simp only [drainReceiptsList, List.filterMap_cons]
      rcases hbb : buildFileBlob item with _ | b
      · have hbu : buildUploadRequest apiUrl item = none := by
          simp [buildUploadRequest, hbb]
        simp [receiptStep, hbu, drainReceiptsList_snd apiUrl out rest]
      · have hbu : buildUploadRequest apiUrl item
            = some { url := apiUrl ++ "/receipts/upload", method := "POST",
                     body := { fileName :=
                                 "receipt_" ++ toString item.id ++ ".jpg",
                               fileBytes := b, company_id := item.company_id,
                               project_id := item.project_id } } := by
          simp [buildUploadRequest, hbb]
        simp [receiptStep, hbu, drainReceiptsList_snd apiUrl out rest]

/-- Membership in the pending receipts scan. -/
theorem mem_scanPendingR (dbr : List OfflineReceipt) (r : OfflineReceipt) :
    r ∈ scanPendingR dbr ↔ r ∈ dbr ∧ r.status = SyncStatus.pending_sync := by
  simp [scanPendingR, List.mem_filter]

/-- Final table of syncReceipts, in closed map form. -/
theorem syncReceipts_fst (apiUrl : String) (out : Nat → Option Nat)
    (dbr : List OfflineReceipt) :
    (syncReceipts apiUrl out dbr).1
      = dbr.map fun r =>
          if (scanPendingR dbr).any
              (fun i => decide (i.id = r.id) && (buildFileBlob i).isSome) then
            applyOutcomeR (out r.id) r
          else r :=
  drainReceiptsList_fst apiUrl out (scanPendingR dbr) dbr

/-- Requests of syncReceipts: one per pending entry with a buildable
payload. -/
theorem syncReceipts_snd (apiUrl : String) (out : Nat → Option Nat)
    (dbr : List OfflineReceipt) :
    (syncReceipts apiUrl out dbr).2
      = (scanPendingR dbr).filterMap (buildUploadRequest apiUrl) :=
  drainReceiptsList_snd apiUrl out (scanPendingR dbr) dbr

/-- A drain pass never changes the set of receipt primary keys. -/
theorem syncReceipts_ids (apiUrl : String) (out : Nat → Option Nat)
    (dbr : List OfflineReceipt) :
    (syncReceipts apiUrl out dbr).1.map OfflineReceipt.id
      = dbr.map OfflineReceipt.id := by
  rw [syncReceipts_fst, List.map_map]
  apply List.map_congr_left
  intro r _
  by_cases hc :
      (scanPendingR dbr).any
        (fun i => decide (i.id = r.id) && (buildFileBlob i).isSome) = true <;>
    simp [hc, applyOutcomeR_id, Function.comp]

/-- With unique primary keys, the record of the final receipts table
carrying a given entry's id is the entry with its outcome applied (when
the entry was scanned with a buildable payload) or the entry itself. -/
theorem syncReceipts_at_id (apiUrl : String) (out : Nat → Option Nat)
    (dbr : List OfflineReceipt) (item : OfflineReceipt)
    (hnd : (dbr.map OfflineReceipt.id).Nodup) (hmem : item ∈ dbr) :
    ∀ r ∈ (syncReceipts apiUrl out dbr).1, r.id = item.id →
      r = if (scanPendingR dbr).any
              (fun i => decide (i.id = item.id) && (buildFileBlob i).isSome) then
            applyOutcomeR (out item.id) item
          else item := by
  intro r hr hid
  rw [syncReceipts_fst] at hr
  rcases List.mem_map.mp hr with ⟨r0, hr0, hfr⟩
  have hid0 : r0.id = item.id := by
    have : r.id = r0.id := by
      rw [← hfr]
      by_cases hc :
          (scanPendingR dbr).any
            (fun i => decide (i.id = r0.id) && (buildFileBlob i).isSome) = true <;>
        simp [hc, applyOutcomeR_id]
    omega
  have hr0item : r0 = item := List.inj_on_of_nodup_map hnd hr0 hmem hid0
  subst hr0item
  rw [← hfr, hid0]

/-- A receipt whose scan condition fails survives the pass unchanged. -/
theorem syncReceipts_unchanged (apiUrl : String) (out : Nat → Option Nat)
    (dbr : List OfflineReceipt) (item : OfflineReceipt) (hmem : item ∈ dbr)
    (hcond :
      (scanPendingR dbr).any
        (fun i => decide (i.id = item.id) && (buildFileBlob i).isSome) = false) :
    item ∈ (syncReceipts apiUrl out dbr).1 := by
  rw [syncReceipts_fst]
  exact List.mem_map.mpr ⟨item, hmem, by simp [hcond]⟩

/-- With unique keys, a non-pending receipt fails the scan condition. -/
theorem receipts_cond_false_of_not_pending (dbr : List OfflineReceipt)
    (item : OfflineReceipt) (hnd : (dbr.map OfflineReceipt.id).Nodup)
    (hmem : item ∈ dbr) (hnp : item.status ≠ SyncStatus.pending_sync) :
    (scanPendingR dbr).any
      (fun i => decide (i.id = item.id) && (buildFileBlob i).isSome) = false := by
  rw [List.any_eq_false]
  intro i hi
  simp only [Bool.and_eq_true, decide_eq_true_eq, not_and]
  intro hidi _
  have hidbm : i ∈ dbr := ((mem_scanPendingR dbr i).mp hi).1
  have hii : i = item := List.inj_on_of_nodup_map hnd hidbm hmem hidi
  exact hnp (hii ▸ ((mem_scanPendingR dbr i).mp hi).2)

/-- With unique keys, a receipt without a buildable payload fails the
scan condition. -/
theorem receipts_cond_false_of_no_payload (dbr : List OfflineReceipt)
    (item : OfflineReceipt) (hnd : (dbr.map OfflineReceipt.id).Nodup)
    (hmem : item ∈ dbr) (hblob : buildFileBlob item = none) :
    (scanPendingR dbr).any
      (fun i => decide (i.id = item.id) && (buildFileBlob i).isSome) = false := by
  rw [List.any_eq_false]
  intro i hi
  simp only [Bool.and_eq_true, decide_eq_true_eq, not_and]
  intro hidi
  have hidbm : i ∈ dbr := ((mem_scanPendingR dbr i).mp hi).1
  have hii : i = item := List.inj_on_of_nodup_map hnd hidbm hmem hidi
  rw [hii, hblob]
  simp

/-- A non-pending receipt is never scanned and never changed by any
number of later drain passes. -/
theorem runReceiptsPasses_not_pending (apiUrl : String) :
    ∀ (outs : List (Nat → Option Nat)) (dbr : List OfflineReceipt)
      (item : OfflineReceipt),
      (dbr.map OfflineReceipt.id).Nodup → item ∈ dbr →
      item.status ≠ SyncStatus.pending_sync →
      item ∈ runReceiptsPasses apiUrl outs dbr ∧
        item ∉ scanPendingR (runReceiptsPasses apiUrl outs dbr)
  | [], _, item, _, hmem, hnp =>
      ⟨hmem, fun hin => hnp ((mem_scanPendingR _ _).mp hin).2⟩
  | out :: rest, dbr, item, hnd, hmem, hnp => by
      have h1 : item ∈ (syncReceipts apiUrl out dbr).1 :=
        syncReceipts_unchanged apiUrl out dbr item hmem
          (receipts_cond_false_of_not_pending dbr item hnd hmem hnp)
      have hnd1 :
          ((syncReceipts apiUrl out dbr).1.map OfflineReceipt.id).Nodup := by
        rw [syncReceipts_ids]
        exact hnd
      exact runReceiptsPasses_not_pending apiUrl rest _ item hnd1 h1 hnp

/-- A pending receipt without a buildable payload survives any number of
drain passes unchanged. -/
theorem runReceiptsPasses_no_payload (apiUrl : String) :
    ∀ (outs : List (Nat → Option Nat)) (dbr : List OfflineReceipt)
      (item : OfflineReceipt),
      (dbr.map OfflineReceipt.id).Nodup → item ∈ dbr →
      buildFileBlob item = none →
      item ∈ runReceiptsPasses apiUrl outs dbr
  | [], _, _, _, hmem, _ => hmem
  | out :: rest, dbr, item, hnd, hmem, hblob => by
      have h1 : item ∈ (syncReceipts apiUrl out dbr).1 :=
        syncReceipts_unchanged apiUrl out dbr item hmem
          (receipts_cond_false_of_no_payload dbr item hnd hmem hblob)
      have hnd1 :
          ((syncReceipts apiUrl out dbr).1.map OfflineReceipt.id).Nodup := by
        rw [syncReceipts_ids]
        exact hnd
      exact runReceiptsPasses_no_payload apiUrl rest _ item hnd1 h1 hblob

/-- A pending measurement is always picked up by the scan condition. -/
theorem measurements_cond_true_of_pending (dbm : List OfflineMeasurement)
    (item : OfflineMeasurement) (hmem : item ∈ dbm)
    (hp : item.status = SyncStatus.pending_sync) :
    (scanPendingM dbm).any (fun i => decide (i.id = item.id)) = true := by
  rw [List.any_eq_true]
  exact ⟨item, (mem_scanPendingM dbm item).mpr ⟨hmem, hp⟩, by simp⟩

/-- A pending receipt with a buildable payload is picked up by the scan
condition. -/
theorem receipts_cond_true_of_pending (dbr : List OfflineReceipt)
    (item : OfflineReceipt) (hmem : item ∈ dbr)
    (hp : item.status = SyncStatus.pending_sync)
    (hblob : (buildFileBlob item).isSome = true) :
    (scanPendingR dbr).any
      (fun i => decide (i.id = item.id) && (buildFileBlob i).isSome) = true := by
  rw [List.any_eq_true]
  exact ⟨item, (mem_scanPendingR dbr item).mpr ⟨hmem, hp⟩, by simp [hblob]⟩

/-- The listener triggers exactly one syncData call per offline-to-online
transition when the delivered events are genuine transitions. -/
theorem listenerTriggers_eq_transitions :
    ∀ (events : List Bool) (s0 : Bool), genuineTransitions s0 events →
      listenerTriggers events = offlineToOnlineCount s0 events
  | [], _, _ => rfl
  | cur :: rest, s0, h => by
      rcases h with ⟨hne, hrest⟩
      have ih := listenerTriggers_eq_transitions rest cur hrest
      cases cur <;> cases s0 <;>
        simp_all [listenerTriggers, offlineToOnlineCount, List.filter]
      omega

/-- A measurement whose request throws is left untouched by the pass. -/
theorem syncMeasurements_netError_unchanged (apiUrl : String)
    (out : Nat → Option Nat) (dbm : List OfflineMeasurement)
    (item : OfflineMeasurement) (hmem : item ∈ dbm)
    (hout : out item.id = none) :
    item ∈ (syncMeasurements apiUrl out dbm).1 := by
  rw [syncMeasurements_fst]
  refine List.mem_map.mpr ⟨item, hmem, ?_⟩
  by_cases hc : (scanPendingM dbm).any (fun i => decide (i.id = item.id)) = true <;>
    simp [hc, hout, applyOutcomeM]

/-- A receipt whose upload request throws is left untouched by the
pass. -/
theorem syncReceipts_netError_unchanged (apiUrl : String)
    (out : Nat → Option Nat) (dbr : List OfflineReceipt)
    (item : OfflineReceipt) (hmem : item ∈ dbr)
    (hout : out item.id = none) :
    item ∈ (syncReceipts apiUrl out dbr).1 := by
  rw [syncReceipts_fst]
  refine List.mem_map.mpr ⟨item, hmem, ?_⟩
  by_cases hc :
      (scanPendingR dbr).any
        (fun i => decide (i.id = item.id) && (buildFileBlob i).isSome) = true <;>
    simp [hc, hout, applyOutcomeR]

/-- A scanned pending measurement answered with a 2xx status is marked
synced. -/
theorem measurement_success_synced (apiUrl : String) (out : Nat → Option Nat)
    (dbm : List OfflineMeasurement) (item : OfflineMeasurement) (code : Nat)
    (hnd : (dbm.map OfflineMeasurement.id).Nodup) (hmem : item ∈ dbm)
    (hp : item.status = SyncStatus.pending_sync)
    (hcode : out item.id = some code) (h1 : 200 ≤ code) (h2 : code < 300) :
    ∀ m ∈ (syncMeasurements apiUrl out dbm).1, m.id = item.id →
      m.status = SyncStatus.synced := by
  intro m hmf hid
  have hok : responseOk code = true := by
    simp only [responseOk, Bool.and_eq_true, decide_eq_true_eq]
    omega
  have hcond := measurements_cond_true_of_pending dbm item hmem hp
  have hm2 := syncMeasurements_at_id apiUrl out dbm item hnd hmem m hmf hid
  rw [hcond] at hm2
  simp only [if_true] at hm2
  rw [hcode] at hm2
  subst hm2
  simp [applyOutcomeM, hok]

/-- A scanned pending receipt with a buildable payload answered with a
2xx status is marked synced. -/
theorem receipt_success_synced (apiUrl : String) (out : Nat → Option Nat)
    (dbr : List OfflineReceipt) (item : OfflineReceipt) (code : Nat)
    (hnd : (dbr.map OfflineReceipt.id).Nodup) (hmem : item ∈ dbr)
    (hp : item.status = SyncStatus.pending_sync)
    (hblob : (buildFileBlob item).isSome = true)
    (hcode : out item.id = some code) (h1 : 200 ≤ code) (h2 : code < 300) :
    ∀ r ∈ (syncReceipts apiUrl out dbr).1, r.id = item.id →
      r.status = SyncStatus.synced := by
  intro r hrf hid
  have hok : responseOk code = true := by
    simp only [responseOk, Bool.and_eq_true, decide_eq_true_eq]
    omega
  have hcond := receipts_cond_true_of_pending dbr item hmem hp hblob
  have hr2 := syncReceipts_at_id apiUrl out dbr item hnd hmem r hrf hid
  rw [hcond] at hr2
  simp only [if_true] at hr2
  rw [hcode] at hr2
  subst hr2
  simp [applyOutcomeR, hok]

/-! ## Claim theorems -/

/-- C1: the single-flight claim fails on the code.  Two syncData calls
from the network-listener closure (whose captured isSyncing is the first
render's false, since setIsSyncing never rebinds a closure's constant)
both pass the `if (isSyncing) return` guard when the second call arrives
while the first is suspended at an await: on a store with one pending
measurement the demo schedule leaves both tasks mid-pass holding the same
scanned entry, the entry's provision request is POSTed twice, and after
the first call's finally block isSyncing is false while the second call's
pass is still in flight. -/
theorem singleFlight_guard_failure :
    demoMid.taskA = TaskPhase.procM [exPendingM] ∧
    demoMid.taskB = TaskPhase.procM [exPendingM] ∧
    demoFinal.g.requestsM =
      [buildProvisionRequest defaultApiUrl exPendingM,
       buildProvisionRequest defaultApiUrl exPendingM] ∧
    demoFinal.g.isSyncingStore = false ∧
    demoFinal.taskB ≠ TaskPhase.finished := by
  decide

/-- C2 counterexample: a pending measurement whose request throws (a
network error) is submitted but then left at pending_sync with no
error_message — the drainer's catch block only logs, so the claim that
every failed entry is marked error is false at this input. -/
theorem networkError_leaves_pending :
    (syncMeasurements defaultApiUrl (fun _ => none) [exPendingM]).1
      = [exPendingM] ∧
    (syncMeasurements defaultApiUrl (fun _ => none) [exPendingM]).2
      = [buildProvisionRequest defaultApiUrl exPendingM] ∧
    exPendingM.status = SyncStatus.pending_sync ∧
    exPendingM.error_message = none ∧
    SyncStatus.pending_sync ≠ SyncStatus.error := by
  decide

/-- C2 amended: an entry whose submission fails with a non-2xx response
is marked error with the non-empty message 'Erro no servidor' (or
'Erro no upload' for receipts); an entry whose request throws (network
error) is left unchanged at pending_sync, not marked error. -/
theorem failure_bookkeeping (apiUrl : String) (outM outR : Nat → Option Nat)
    (dbm : List OfflineMeasurement) (dbr : List OfflineReceipt)
    (item : OfflineMeasurement) (ritem : OfflineReceipt)
    (hndM : (dbm.map OfflineMeasurement.id).Nodup)
    (hndR : (dbr.map OfflineReceipt.id).Nodup)
    (hm : item ∈ dbm) (hp : item.status = SyncStatus.pending_sync)
    (hr : ritem ∈ dbr) (hrp : ritem.status = SyncStatus.pending_sync)
    (hblob : (buildFileBlob ritem).isSome = true) :
    (∀ code, outM item.id = some code → responseOk code = false →
      ∀ m ∈ (syncMeasurements apiUrl outM dbm).1, m.id = item.id →
        m.status = SyncStatus.error ∧
          m.error_message = some "Erro no servidor") ∧
    (outM item.id = none → item ∈ (syncMeasurements apiUrl outM dbm).1) ∧
    (∀ code, outR ritem.id = some code → responseOk code = false →
      ∀ r ∈ (syncReceipts apiUrl outR dbr).1, r.id = ritem.id →
        r.status = SyncStatus.error ∧
          r.error_message = some "Erro no upload") ∧
    (outR ritem.id = none → ritem ∈ (syncReceipts apiUrl outR dbr).1) := by
  refine ⟨?_, ?_, ?_, ?_⟩
  · intro code hcode hok m hmf hid
    have hcond := measurements_cond_true_of_pending dbm item hm hp
    have hm2 := syncMeasurements_at_id apiUrl outM dbm item hndM hm m hmf hid
    rw [hcond] at hm2
    simp only [if_true] at hm2
    rw [hcode] at hm2
    subst hm2
    simp [applyOutcomeM, hok]
  · intro hout
    exact syncMeasurements_netError_unchanged apiUrl outM dbm item hm hout
  · intro code hcode hok r hrf hid
    have hcond := receipts_cond_true_of_pending dbr ritem hr hrp hblob
    have hr2 := syncReceipts_at_id apiUrl outR dbr ritem hndR hr r hrf hid
    rw [hcond] at hr2
    simp only [if_true] at hr2
    rw [hcode] at hr2
    subst hr2
    simp [applyOutcomeR, hok]
  · intro hout
    exact syncReceipts_netError_unchanged apiUrl outR dbr ritem hr hout

/-- C2 witness: the amended statement applied at a concrete store of one
pending measurement and one pending blob-carrying receipt, with every
submission answered 500. -/
theorem failure_bookkeeping_witness :
    (∀ m ∈ (syncMeasurements defaultApiUrl (fun _ => some 500)
              [exPendingM]).1,
        m.id = exPendingM.id →
          m.status = SyncStatus.error ∧
            m.error_message = some "Erro no servidor") ∧
    (∀ r ∈ (syncReceipts defaultApiUrl (fun _ => some 500)
              [exReceiptBlob]).1,
        r.id = exReceiptBlob.id →
          r.status = SyncStatus.error ∧
            r.error_message = some "Erro no upload") := by
  have h := failure_bookkeeping defaultApiUrl (fun _ => some 500)
      (fun _ => some 500) [exPendingM] [exReceiptBlob] exPendingM exReceiptBlob
      (by decide) (by decide) (by decide) (by decide) (by decide) (by decide)
      (by decide)
  exact ⟨h.1 500 rfl (by decide), h.2.2.1 500 rfl (by decide)⟩

/-- C3 counterexample: a drain pass does not select an entry whose
status is error — on a store holding only an error measurement, the
pending scan is empty and the pass issues no request and changes
nothing, refuting the claim that error entries are re-attempted. -/
theorem errorEntry_not_reselected :
    exErrorM ∈ [exErrorM] ∧ exErrorM.status = SyncStatus.error ∧
    scanPendingM [exErrorM] = [] ∧
    syncMeasurements defaultApiUrl outAllOk [exErrorM] = ([exErrorM], []) := by
  decide

/-- C3 amended: a drain pass selects only entries at pending_sync; an
entry in error at the start of a pass is not selected, not resubmitted
(the pass's requests come exactly from the pending scan), and is left
unchanged — error entries are never automatically re-attempted, so error,
like synced, is permanent absent external action. -/
theorem error_entries_permanent (apiUrl : String)
    (outM outR : Nat → Option Nat)
    (dbm : List OfflineMeasurement) (dbr : List OfflineReceipt)
    (item : OfflineMeasurement) (ritem : OfflineReceipt)
    (hndM : (dbm.map OfflineMeasurement.id).Nodup)
    (hndR : (dbr.map OfflineReceipt.id).Nodup)
    (hm : item ∈ dbm) (he : item.status = SyncStatus.error)
    (hr : ritem ∈ dbr) (hre : ritem.status = SyncStatus.error) :
    (item ∉ scanPendingM dbm ∧ item ∈ (syncMeasurements apiUrl outM dbm).1) ∧
    (ritem ∉ scanPendingR dbr ∧ ritem ∈ (syncReceipts apiUrl outR dbr).1) ∧
    (syncMeasurements apiUrl outM dbm).2
      = (scanPendingM dbm).map (buildProvisionRequest apiUrl) ∧
    (syncReceipts apiUrl outR dbr).2
      = (scanPendingR dbr).filterMap (buildUploadRequest apiUrl) := by
  have hnp : item.status ≠ SyncStatus.pending_sync := by simp [he]
  have hrnp : ritem.status ≠ SyncStatus.pending_sync := by simp [hre]
  refine ⟨syncMeasurements_not_pending_unchanged apiUrl outM dbm item hndM hm hnp,
    ⟨?_, ?_⟩, syncMeasurements_snd apiUrl outM dbm, syncReceipts_snd apiUrl outR dbr⟩
  · intro hin
    exact hrnp ((mem_scanPendingR dbr ritem).mp hin).2
  · exact syncReceipts_unchanged apiUrl outR dbr ritem hr
      (receipts_cond_false_of_not_pending dbr ritem hndR hr hrnp)

/-- C3 witness: the amended statement at a store holding one error
measurement and one error receipt. -/
theorem error_entries_permanent_witness :
    (exErrorM ∉ scanPendingM [exErrorM] ∧
      exErrorM ∈ (syncMeasurements defaultApiUrl outAllOk [exErrorM]).1) ∧
    (exErrorR ∉ scanPendingR [exErrorR] ∧
      exErrorR ∈ (syncReceipts defaultApiUrl outAllOk [exErrorR]).1) := by
  have h := error_entries_permanent defaultApiUrl outAllOk outAllOk
    [exErrorM] [exErrorR] exErrorM exErrorR
    (by decide) (by decide) (by decide) (by decide) (by decide) (by decide)
  exact ⟨h.1, h.2.1⟩

/-- C4: a drain scan selects only entries at pending_sync (both kinds);
an entry answered 2xx is marked synced; and a synced entry is never
selected nor changed by any number of later drain passes, hence never
resubmitted. -/
theorem synced_is_permanent :
    (∀ dbm : List OfflineMeasurement, ∀ m ∈ scanPendingM dbm,
        m.status = SyncStatus.pending_sync) ∧
    (∀ dbr : List OfflineReceipt, ∀ r ∈ scanPendingR dbr,
        r.status = SyncStatus.pending_sync) ∧
    (∀ (apiUrl : String) (out : Nat → Option Nat)
        (dbm : List OfflineMeasurement) (item : OfflineMeasurement)
        (code : Nat),
      (dbm.map OfflineMeasurement.id).Nodup → item ∈ dbm →
      item.status = SyncStatus.pending_sync → out item.id = some code →
      200 ≤ code → code < 300 →
      ∀ m ∈ (syncMeasurements apiUrl out dbm).1, m.id = item.id →
        m.status = SyncStatus.synced) ∧
    (∀ (apiUrl : String) (out : Nat → Option Nat)
        (dbr : List OfflineReceipt) (ritem : OfflineReceipt) (code : Nat),
      (dbr.map OfflineReceipt.id).Nodup → ritem ∈ dbr →
      ritem.status = SyncStatus.pending_sync →
      (buildFileBlob ritem).isSome = true → out ritem.id = some code →
      200 ≤ code → code < 300 →
      ∀ r ∈ (syncReceipts apiUrl out dbr).1, r.id = ritem.id →
        r.status = SyncStatus.synced) ∧
    (∀ (apiUrl : String) (outs : List (Nat → Option Nat))
        (dbm : List OfflineMeasurement) (item : OfflineMeasurement),
      (dbm.map OfflineMeasurement.id).Nodup → item ∈ dbm →
      item.status = SyncStatus.synced →
      item ∈ runMeasurementsPasses apiUrl outs dbm ∧
        item ∉ scanPendingM (runMeasurementsPasses apiUrl outs dbm)) ∧
    (∀ (apiUrl : String) (outs : List (Nat → Option Nat))
        (dbr : List OfflineReceipt) (ritem : OfflineReceipt),
      (dbr.map OfflineReceipt.id).Nodup → ritem ∈ dbr →
      ritem.status = SyncStatus.synced →
      ritem ∈ runReceiptsPasses apiUrl outs dbr ∧
        ritem ∉ scanPendingR (runReceiptsPasses apiUrl outs dbr)) := by
  refine ⟨?_, ?_, ?_, ?_, ?_, ?_⟩
  · intro dbm m hm
    exact ((mem_scanPendingM dbm m).mp hm).2
  · intro dbr r hr
    exact ((mem_scanPendingR dbr r).mp hr).2
  · intro apiUrl out dbm item code hnd hmem hp hcode h1 h2
    exact measurement_success_synced apiUrl out dbm item code hnd hmem hp
      hcode h1 h2
  · intro apiUrl out dbr ritem code hnd hmem hp hblob hcode h1 h2
    exact receipt_success_synced apiUrl out dbr ritem code hnd hmem hp hblob
      hcode h1 h2
  · intro apiUrl outs dbm item hnd hmem hs
    exact runMeasurementsPasses_not_pending apiUrl outs dbm item hnd hmem
      (by simp [hs])
  · intro apiUrl outs dbr ritem hnd hmem hs
    exact runReceiptsPasses_not_pending apiUrl outs dbr ritem hnd hmem
      (by simp [hs])

/-- C4 witness: a pending measurement answered 200 ends synced, and a
synced measurement survives a later all-200 pass unscanned. -/
theorem synced_is_permanent_witness :
    (∀ m ∈ (syncMeasurements defaultApiUrl outAllOk [exPendingM]).1,
        m.id = exPendingM.id → m.status = SyncStatus.synced) ∧
    (exSyncedM ∈ runMeasurementsPasses defaultApiUrl [outAllOk] [exSyncedM] ∧
      exSyncedM ∉
        scanPendingM (runMeasurementsPasses defaultApiUrl [outAllOk]
          [exSyncedM])) := by
  refine ⟨synced_is_permanent.2.2.1 defaultApiUrl outAllOk [exPendingM]
      exPendingM 200 (by decide) (by decide) (by decide) rfl (by decide)
      (by decide),
    synced_is_permanent.2.2.2.2.1 defaultApiUrl [outAllOk] [exSyncedM]
      exSyncedM (by decide) (by decide) (by decide)⟩

/-- C5 counterexample: in a batch of three pending measurements where
entry 2's submission fails by a thrown network error and entries 1 and 3
succeed, the end state is [synced, pending_sync, synced], not the claimed
[synced, error, synced] — all three submissions are still attempted. -/
theorem mixed_batch_netError_state :
    ((syncMeasurements defaultApiUrl outNetErrOn2 exBatch).1.map
        OfflineMeasurement.status)
      = [SyncStatus.synced, SyncStatus.pending_sync, SyncStatus.synced] ∧
    (syncMeasurements defaultApiUrl outNetErrOn2 exBatch).2.length = 3 ∧
    [SyncStatus.synced, SyncStatus.pending_sync, SyncStatus.synced]
      ≠ [SyncStatus.synced, SyncStatus.error, SyncStatus.synced] := by
  decide

/-- C5 amended: a failed submission never aborts the rest of the scan —
the pass's requests are exactly one per scanned entry (both kinds),
whatever the outcomes; in the mixed batch of three, the end state is
[synced, error, synced] when entry 2 fails with a non-2xx response and
[synced, pending_sync, synced] when entry 2's request throws. -/
theorem partial_failure_isolation :
    (∀ (apiUrl : String) (out : Nat → Option Nat)
        (dbm : List OfflineMeasurement),
      (syncMeasurements apiUrl out dbm).2
        = (scanPendingM dbm).map (buildProvisionRequest apiUrl)) ∧
    (∀ (apiUrl : String) (out : Nat → Option Nat)
        (dbr : List OfflineReceipt),
      (syncReceipts apiUrl out dbr).2
        = (scanPendingR dbr).filterMap (buildUploadRequest apiUrl)) ∧
    ((syncMeasurements defaultApiUrl outHttpErrOn2 exBatch).1.map
        OfflineMeasurement.status
      = [SyncStatus.synced, SyncStatus.error, SyncStatus.synced]) ∧
    ((syncMeasurements defaultApiUrl outNetErrOn2 exBatch).1.map
        OfflineMeasurement.status
      = [SyncStatus.synced, SyncStatus.pending_sync, SyncStatus.synced]) := by
  exact ⟨fun apiUrl out dbm => syncMeasurements_snd apiUrl out dbm,
    fun apiUrl out dbr => syncReceipts_snd apiUrl out dbr,
    by decide, by decide⟩

/-- C6: when the platform delivers one networkStatusChange event per
genuine transition, the listener makes exactly one syncData call per
offline-to-online transition (a redundant repeated online report never
occurs in such a stream, so it triggers nothing), and a pass submits
exactly the entries pending at its scan. -/
theorem connectivity_transition_drains (s0 : Bool) (events : List Bool)
    (h : genuineTransitions s0 events) :
    listenerTriggers events = offlineToOnlineCount s0 events ∧
    (∀ (apiUrl : String) (out : Nat → Option Nat)
        (dbm : List OfflineMeasurement),
      (syncMeasurements apiUrl out dbm).2
        = (scanPendingM dbm).map (buildProvisionRequest apiUrl)) ∧
    (∀ (apiUrl : String) (out : Nat → Option Nat)
        (dbr : List OfflineReceipt),
      (syncReceipts apiUrl out dbr).2
        = (scanPendingR dbr).filterMap (buildUploadRequest apiUrl)) :=
  ⟨listenerTriggers_eq_transitions events s0 h,
    fun apiUrl out dbm => syncMeasurements_snd apiUrl out dbm,
    fun apiUrl out dbr => syncReceipts_snd apiUrl out dbr⟩

/-- C6 witness: one offline-to-online transition yields exactly one
trigger. -/
theorem connectivity_transition_drains_witness :
    listenerTriggers [true] = offlineToOnlineCount false [true] ∧
    listenerTriggers [true] = 1 :=
  ⟨(connectivity_transition_drains false [true] (by decide)).1, by decide⟩

/-- C7: an entry saved while offline (measurement save or receipt
capture) is inserted with status pending_sync and is returned by a
subsequent pending scan of its kind's table, also after reopening the
database following a process restart. -/
theorem offline_insert_pending_durable (d : SyncDb)
    (pid desc today nowIso cid mime : String) (bytes : List Nat) :
    (newMeasurementEntry d.measurements pid desc today nowIso).status
      = SyncStatus.pending_sync ∧
    (newReceiptEntry d.receipts cid mime bytes nowIso).status
      = SyncStatus.pending_sync ∧
    newMeasurementEntry d.measurements pid desc today nowIso
      ∈ scanPendingM
          (reopenOptusOfflineDb
            { measurements :=
                handleSubmitOffline d.measurements pid desc today nowIso
              receipts := d.receipts }).measurements ∧
    newReceiptEntry d.receipts cid mime bytes nowIso
      ∈ scanPendingR
          (reopenOptusOfflineDb
            { measurements := d.measurements
              receipts :=
                handleUploadOffline d.receipts cid mime bytes nowIso }).receipts := by
  refine ⟨rfl, rfl, ?_, ?_⟩
  · exact (mem_scanPendingM _ _).mpr
      ⟨List.mem_append_right _ (List.mem_singleton_self _), rfl⟩
  · exact (mem_scanPendingR _ _).mpr
      ⟨List.mem_append_right _ (List.mem_singleton_self _), rfl⟩

/-- C8: for the same captured image bytes, a queued receipt stored with
the raw blob and one stored with the base64 data URL produce the same
multipart submission body when drained — in particular the same binary
content as the 'file' part alongside company_id and the optional
project_id. -/
theorem receipt_payload_roundtrip (apiUrl mime : String) (bytes : List Nat)
    (idn : Nat) (cid : String) (pid : Option String) (ca cb : String)
    (hm : ',' ∉ mime.data) (hb : ∀ b ∈ bytes, b < 256) :
    buildUploadRequest apiUrl
        { id := idn, company_id := cid, project_id := pid,
          image_blob := some bytes, image_base64 := none,
          status := SyncStatus.pending_sync, error_message := none,
          created_at := ca }
      = buildUploadRequest apiUrl
        { id := idn, company_id := cid, project_id := pid,
          image_blob := none,
          image_base64 := some (readAsDataURL mime bytes),
          status := SyncStatus.pending_sync, error_message := none,
          created_at := cb } ∧
    (buildUploadRequest apiUrl
        { id := idn, company_id := cid, project_id := pid,
          image_blob := some bytes, image_base64 := none,
          status := SyncStatus.pending_sync, error_message := none,
          created_at := ca }).map multipartContent
      = some (bytes, cid, pid) := by
  have hfetch := fetchDataUrlBlob_readAsDataURL mime bytes hm hb
  constructor
  · simp [buildUploadRequest, buildFileBlob, hfetch]
  · simp [buildUploadRequest, buildFileBlob, multipartContent]

/-- C8 witness: the round trip at a concrete JPEG-typed image of three
bytes. -/
theorem receipt_payload_roundtrip_witness :
    buildUploadRequest defaultApiUrl
        { id := 9, company_id := "comp-1", project_id := some "proj-1",
          image_blob := some [0, 127, 255], image_base64 := none,
          status := SyncStatus.pending_sync, error_message := none,
          created_at := "t1" }
      = buildUploadRequest defaultApiUrl
        { id := 9, company_id := "comp-1", project_id := some "proj-1",
          image_blob := none,
          image_base64 := some (readAsDataURL "image/jpeg" [0, 127, 255]),
          status := SyncStatus.pending_sync, error_message := none,
          created_at := "t2" } :=
  (receipt_payload_roundtrip defaultApiUrl "image/jpeg" [0, 127, 255] 9
    "comp-1" (some "proj-1") "t1" "t2" (by decide) (by decide)).1

/-- C9 counterexample: the drainer posts a queued measurement to
API_URL ++ '/projects/provisions', not to the '/provisions' endpoint the
claim names. -/
theorem provisions_path_mismatch :
    (buildProvisionRequest defaultApiUrl exPendingM).url
      = "http://localhost:8000/api/v1/projects/provisions" ∧
    (buildProvisionRequest defaultApiUrl exPendingM).url
      ≠ defaultApiUrl ++ "/provisions" := by
  decide

/-- C9 amended: every queued measurement is submitted by a POST to the
/projects/provisions endpoint under the API base, whose body holds
exactly the six fields project_id, description, supplier_name,
measurement_date (from the entry), expected_amount (the constant 0) and
status (the constant 'pending'); response.ok holds exactly for 2xx
status codes, and a pending entry answered 2xx is marked synced. -/
theorem measurement_request_shape (apiUrl : String)
    (item : OfflineMeasurement) :
    buildProvisionRequest apiUrl item
      = { url := apiUrl ++ "/projects/provisions", method := "POST",
          body :=
            { project_id := item.project_id,
              description := item.description,
              supplier_name := item.supplier_name,
              measurement_date := item.measurement_date,
              expected_amount := 0, status := "pending" } } ∧
    (∀ code : Nat, responseOk code = true ↔ 200 ≤ code ∧ code < 300) ∧
    (∀ (out : Nat → Option Nat) (dbm : List OfflineMeasurement)
        (it : OfflineMeasurement) (code : Nat),
      (dbm.map OfflineMeasurement.id).Nodup → it ∈ dbm →
      it.status = SyncStatus.pending_sync → out it.id = some code →
      200 ≤ code → code < 300 →
      ∀ m ∈ (syncMeasurements apiUrl out dbm).1, m.id = it.id →
        m.status = SyncStatus.synced) := by
  refine ⟨rfl, ?_, ?_⟩
  · intro code
    simp [responseOk]
  · intro out dbm it code hnd hmem hp hcode h1 h2
    exact measurement_success_synced apiUrl out dbm it code hnd hmem hp
      hcode h1 h2

/-- C9 witness: the amended statement at a concrete entry, with a 204
response counting as success. -/
theorem measurement_request_shape_witness :
    (buildProvisionRequest defaultApiUrl exPendingM).body.expected_amount
      = 0 ∧
    (responseOk 204 = true ↔ 200 ≤ 204 ∧ 204 < 300) ∧
    (∀ m ∈ (syncMeasurements defaultApiUrl (fun _ => some 204)
              [exPendingM]).1,
        m.id = exPendingM.id → m.status = SyncStatus.synced) := by
  have h := measurement_request_shape defaultApiUrl exPendingM
  exact ⟨by rw [h.1], h.2.1 204,
    h.2.2 (fun _ => some 204) [exPendingM] exPendingM 204 (by decide)
      (by decide) (by decide) rfl (by decide) (by decide)⟩

/-- C10: a pending receipt with neither image_blob nor image_base64
yields no upload request; the pass's submissions are exactly those of the
scanned entries with a buildable payload, so none is made for it; it
survives the pass unchanged, still pending, and remains selected by the
scan after any number of later passes. -/
theorem receipt_without_payload_skipped (apiUrl : String)
    (out : Nat → Option Nat) (dbr : List OfflineReceipt)
    (item : OfflineReceipt)
    (hnd : (dbr.map OfflineReceipt.id).Nodup) (hmem : item ∈ dbr)
    (hp : item.status = SyncStatus.pending_sync)
    (hb1 : item.image_blob = none) (hb2 : item.image_base64 = none) :
    buildUploadRequest apiUrl item = none ∧
    (syncReceipts apiUrl out dbr).2
      = (scanPendingR dbr).filterMap (buildUploadRequest apiUrl) ∧
    item ∈ (syncReceipts apiUrl out dbr).1 ∧
    item ∈ scanPendingR (syncReceipts apiUrl out dbr).1 ∧
    (∀ outs : List (Nat → Option Nat),
      item ∈ runReceiptsPasses apiUrl outs dbr ∧
        item ∈ scanPendingR (runReceiptsPasses apiUrl outs dbr)) := by
  have hblob : buildFileBlob item = none := by
    simp [buildFileBlob, hb1, hb2]
  have hone : item ∈ (syncReceipts apiUrl out dbr).1 :=
    syncReceipts_unchanged apiUrl out dbr item hmem
      (receipts_cond_false_of_no_payload dbr item hnd hmem hblob)
  refine ⟨(buildUploadRequest_eq_none apiUrl item).mpr hblob,
    syncReceipts_snd apiUrl out dbr, hone,
    (mem_scanPendingR _ _).mpr ⟨hone, hp⟩, fun outs => ?_⟩
  have hin := runReceiptsPasses_no_payload apiUrl outs dbr item hnd hmem hblob
  exact ⟨hin, (mem_scanPendingR _ _).mpr ⟨hin, hp⟩⟩

/-- C10 witness: the statement at a store holding one payload-less
pending receipt, with every submission answered 200. -/
theorem receipt_without_payload_skipped_witness :
    buildUploadRequest defaultApiUrl exReceiptEmpty = none ∧
    exReceiptEmpty
      ∈ scanPendingR (syncReceipts defaultApiUrl outAllOk [exReceiptEmpty]).1 := by
  have h := receipt_without_payload_skipped defaultApiUrl outAllOk
    [exReceiptEmpty] exReceiptEmpty (by decide) (by decide) (by decide)
    (by decide) (by decide)
  exact ⟨h.1, h.2.2.2.1⟩

end OptusSync
